import Mathlib

/-!
Shallow embedding of the layout / focus / mode state machine of the
`llm_manager` terminal workspace (`src/llm_manager/gui/main_window.py`,
`root_pane.py`, `pane.py`, `response_pane.py`, `menu.py`).

The application keeps, per pane, a `PaneState` entry in `pane_states`,
a single global `maximized_pane` reference, CSS classes `row-hidden`
(added to row containers and to sibling panes by `_maximize_pane`) and
`pane-minimized`, a per-pane `styles.display` toggle (hide / show), and
per-row `styles.height` levels `1fr` / `2fr` / `3fr`.  All of these are
modelled as explicit record fields, and each action method is translated
into a pure state transformer.
-/

namespace LLMManager

/-- The six registered panes, in the order of `_get_pane_list`
(`main_window.py` lines 240-249): Root first, then the five children. -/
inductive Pane where
  | root
  | userPrompt
  | systemPrompt
  | contextPane
  | llmSelection
  | response
deriving DecidableEq, Repr

/-- `PaneState` enum from `main_window.py` lines 25-29. -/
inductive PaneState where
  | normal
  | maximized
  | minimized
deriving DecidableEq, Repr

/-- Row height levels `1fr` / `2fr` / `3fr` used by
`action_increase_height` / `action_decrease_height`; a row whose height
was never set (`None`) behaves exactly like `1fr`, so it is identified
with `h1`. -/
inductive HeightLevel where
  | h1
  | h2
  | h3
deriving DecidableEq, Repr

/-- Command / Edit input mode of an editable pane (`EditablePane.edit_mode`
in `pane.py`; `false` is Command mode, `true` is Edit mode). -/
inductive Mode where
  | command
  | edit
deriving DecidableEq, Repr

/-- `_get_pane_row` (`main_window.py` lines 572-584): the root pane has no
row; rows are 0 (user / system prompt), 1 (context / llm selection),
2 (response). -/
def paneRow : Pane → Option (Fin 3)
  | Pane.root => none
  | Pane.userPrompt => some 0
  | Pane.systemPrompt => some 0
  | Pane.contextPane => some 1
  | Pane.llmSelection => some 1
  | Pane.response => some 2

/-- Index of a pane in the `_get_pane_list` order. -/
def paneIdx : Pane → Fin 6
  | Pane.root => 0
  | Pane.userPrompt => 1
  | Pane.systemPrompt => 2
  | Pane.contextPane => 3
  | Pane.llmSelection => 4
  | Pane.response => 5

/-- The pane at a given index of the `_get_pane_list` order. -/
def paneAt (i : Fin 6) : Pane :=
  if i.val = 0 then Pane.root
  else if i.val = 1 then Pane.userPrompt
  else if i.val = 2 then Pane.systemPrompt
  else if i.val = 3 then Pane.contextPane
  else if i.val = 4 then Pane.llmSelection
  else Pane.response

/-- The three `EditablePane` instances (user prompt, system prompt,
context); only these have the Command / Edit mode machinery and the
`c` = clear-content binding of `pane.py`. -/
def isEditable : Pane → Bool
  | Pane.userPrompt => true
  | Pane.systemPrompt => true
  | Pane.contextPane => true
  | _ => false

/-- The whole mutable state the layout / focus / mode subsystem touches. -/
structure AppState where
  /-- `self.pane_states` dictionary (missing entries read as `NORMAL`). -/
  paneStates : Pane → PaneState
  /-- `self.maximized_pane` (nullable global). -/
  maximizedPane : Option Pane
  /-- `row-hidden` CSS class on the three `.pane-row` containers. -/
  rowHidden : Fin 3 → Bool
  /-- `row-hidden` CSS class on an individual pane widget (added to the
  maximized pane's siblings by `_maximize_pane`). -/
  paneRowHidden : Pane → Bool
  /-- `styles.display == "none"` on a pane widget (the hide / show
  visibility override of `root_pane.py` and `menu.py`). -/
  displayNone : Pane → Bool
  /-- `pane-minimized` CSS class on a pane widget. -/
  paneMinimized : Pane → Bool
  /-- `styles.height` of the three `.pane-row` containers. -/
  rowHeight : Fin 3 → HeightLevel
  /-- The pane owning the logical input focus (`_get_focused_pane` /
  `_find_current_pane_index` resolve nested widgets to their pane). -/
  focus : Pane
  /-- `EditablePane.edit_mode` per pane (meaningful for editable panes). -/
  mode : Pane → Mode
  /-- Text content of each editable pane's text area. -/
  contents : Pane → String
  /-- `ResponsePane.response_text`. -/
  responseText : String
  /-- `ResponsePane.status`. -/
  status : String

/-- `_restore_all_panes` (`main_window.py` lines 653-662): remove the
`row-hidden` class from every row container and every pane, and set every
pane whose state is not `MINIMIZED` back to `NORMAL`.  It does not touch
`maximized_pane` (callers do), `styles.display`, the `pane-minimized`
class, or row heights. -/
def restoreAllPanes (s : AppState) : AppState :=
  { s with
    rowHidden := fun _ => false
    paneRowHidden := fun _ => false
    paneStates := fun q =>
      if s.paneStates q = PaneState.minimized then PaneState.minimized
      else PaneState.normal }

/-- `_maximize_pane` (`main_window.py` lines 631-651): if the pane has no
row (the root pane) do nothing; otherwise add `row-hidden` to every other
row container, add `row-hidden` to every other pane in the same row, and
record the pane's state as `MAXIMIZED`.  It does not set
`maximized_pane` (callers do). -/
def maximizePane (p : Pane) (s : AppState) : AppState :=
  match paneRow p with
  | none => s
  | some r =>
    { s with
      rowHidden := fun i => if i = r then s.rowHidden i else true
      paneRowHidden := fun q =>
        if paneRow q = some r ∧ q ≠ p then true else s.paneRowHidden q
      paneStates := Function.update s.paneStates p PaneState.maximized }

/-- `action_toggle_maximize` (`main_window.py` lines 586-604) applied with
pane `p` focused. -/
def toggleMaximize (p : Pane) (s : AppState) : AppState :=
  if s.maximizedPane = some p then
    { restoreAllPanes s with maximizedPane := none }
  else if s.maximizedPane ≠ none then
    { maximizePane p (restoreAllPanes s) with maximizedPane := some p }
  else
    { maximizePane p s with maximizedPane := some p }

/-- `action_toggle_minimize` (`main_window.py` lines 606-629) applied with
pane `p` focused. -/
def toggleMinimize (p : Pane) (s : AppState) : AppState :=
  if s.maximizedPane = some p then s
  else if s.paneStates p = PaneState.minimized then
    { s with
      paneMinimized := Function.update s.paneMinimized p false
      paneStates := Function.update s.paneStates p PaneState.normal }
  else
    { s with
      paneMinimized := Function.update s.paneMinimized p true
      paneStates := Function.update s.paneStates p PaneState.minimized }

/-- `action_increase_height` (`main_window.py` lines 671-718) applied with
pane `p` focused. -/
def increaseHeight (p : Pane) (s : AppState) : AppState :=
  if s.maximizedPane = some p then
    let s1 := restoreAllPanes s
    { s1 with
      maximizedPane := none
      paneMinimized := Function.update s1.paneMinimized p true
      paneStates := Function.update s1.paneStates p PaneState.minimized }
  else if s.paneStates p = PaneState.minimized then
    let s1 :=
      { s with
        paneMinimized := Function.update s.paneMinimized p false
        paneStates := Function.update s.paneStates p PaneState.normal }
    match paneRow p with
    | some r => { s1 with rowHeight := Function.update s1.rowHeight r HeightLevel.h1 }
    | none => s1
  else
    match paneRow p with
    | none => s
    | some r =>
      match s.rowHeight r with
      | HeightLevel.h1 => { s with rowHeight := Function.update s.rowHeight r HeightLevel.h2 }
      | HeightLevel.h2 => { s with rowHeight := Function.update s.rowHeight r HeightLevel.h3 }
      | HeightLevel.h3 => { maximizePane p s with maximizedPane := some p }

/-- `action_decrease_height` (`main_window.py` lines 720-767) applied with
pane `p` focused. -/
def decreaseHeight (p : Pane) (s : AppState) : AppState :=
  if s.maximizedPane = some p then
    let s1 := { restoreAllPanes s with maximizedPane := none }
    match paneRow p with
    | some r => { s1 with rowHeight := Function.update s1.rowHeight r HeightLevel.h3 }
    | none => s1
  else if s.paneStates p = PaneState.minimized then
    let s1 :=
      { s with
        paneMinimized := Function.update s.paneMinimized p false
        paneStates := Function.update s.paneStates p PaneState.normal }
    { maximizePane p s1 with maximizedPane := some p }
  else
    match paneRow p with
    | none => s
    | some r =>
      match s.rowHeight r with
      | HeightLevel.h3 => { s with rowHeight := Function.update s.rowHeight r HeightLevel.h2 }
      | HeightLevel.h2 => { s with rowHeight := Function.update s.rowHeight r HeightLevel.h1 }
      | HeightLevel.h1 =>
        { s with
          paneMinimized := Function.update s.paneMinimized p true
          paneStates := Function.update s.paneStates p PaneState.minimized }

/-- `RootPane.hide_all_children` (`root_pane.py` lines 69-72): set
`styles.display = "none"` on every child pane; the root itself is not a
child and keeps its display. -/
def hideAllChildren (s : AppState) : AppState :=
  { s with
    displayNone := fun q => if q = Pane.root then s.displayNone q else true }

/-- `RootPane.show_all_children` (`root_pane.py` lines 74-77). -/
def showAllChildren (s : AppState) : AppState :=
  { s with
    displayNone := fun q => if q = Pane.root then s.displayNone q else false }

/-- Per-pane hide from the pane menu (`menu.py`,
`_hide_highlighted_pane`): sets `styles.display = "none"` on the selected
pane (any pane of `_get_pane_list`, the root included). -/
def hidePane (p : Pane) (s : AppState) : AppState :=
  { s with displayNone := Function.update s.displayNone p true }

/-- Per-pane unhide from the pane menu (`menu.py`,
`_unhide_highlighted_pane`). -/
def unhidePane (p : Pane) (s : AppState) : AppState :=
  { s with displayNone := Function.update s.displayNone p false }

/-- `RootPane.reset_layout` (`root_pane.py` lines 79-89): for every child
pane set `styles.display = "block"` and remove the `pane-minimized` class
(the root itself is not a child pane, so its own display and
`pane-minimized` class are untouched); reset every row's height to `1fr`
and remove the row containers' `row-hidden` class. -/
def rootResetLayout (s : AppState) : AppState :=
  { s with
    displayNone := fun q => if q = Pane.root then s.displayNone q else false
    paneMinimized := fun q => if q = Pane.root then s.paneMinimized q else false
    rowHeight := fun _ => HeightLevel.h1
    rowHidden := fun _ => false }

/-- `action_reset_layout` (`main_window.py` lines 777-790): restore from a
maximized state if any, delegate to `RootPane.reset_layout`, then set
every tracked pane state back to `NORMAL`. -/
def actionResetLayout (s : AppState) : AppState :=
  let s1 :=
    if s.maximizedPane ≠ none then
      { restoreAllPanes s with maximizedPane := none }
    else s
  let s2 := rootResetLayout s1
  { s2 with paneStates := fun _ => PaneState.normal }

/-- Successor pane in the `_get_pane_list` order with wraparound,
`(current_index + 1) % len(panes)` (`action_focus_next`,
`main_window.py` lines 282-290). -/
def focusNextPane (p : Pane) : Pane := paneAt (paneIdx p + 1)

/-- Predecessor pane with wraparound, `(current_index - 1) % len(panes)`
(`action_focus_previous`, `main_window.py` lines 292-300). -/
def focusPrevPane (p : Pane) : Pane := paneAt (paneIdx p - 1)

/-- `action_focus_next` as a state transformer: only the focus owner
changes. -/
def actionFocusNext (s : AppState) : AppState :=
  { s with focus := focusNextPane s.focus }

/-- `action_focus_previous` as a state transformer. -/
def actionFocusPrevious (s : AppState) : AppState :=
  { s with focus := focusPrevPane s.focus }

/-- Direct focus transfer (`pane.focus()` via the pane menu's
select-pane entry or the `action_focus_*` helpers). -/
def focusPane (p : Pane) (s : AppState) : AppState :=
  { s with focus := p }

/-- `ResponsePane.append_response_chunk` (`response_pane.py` lines
140-152): append the chunk to `response_text`; the remaining statements
only refresh the rendered widget and scroll position. -/
def appendResponseChunk (c : String) (s : AppState) : AppState :=
  { s with responseText := s.responseText ++ c }

/-- `ResponsePane.set_status` (`response_pane.py` lines 113-121). -/
def setStatus (t : String) (s : AppState) : AppState :=
  { s with status := t }

/-- `EditablePane.clear_content` (`pane.py` lines 248-256): load empty
text into the pane's text area (the save / notify calls are external
I/O). -/
def clearContent (p : Pane) (s : AppState) : AppState :=
  { s with contents := Function.update s.contents p "" }

/-- `EditablePane.action_clear_content` (`pane.py` lines 242-246): the
`c` binding exists only on editable panes and clears only in command
mode (`if not self.edit_mode`). -/
def actionClearContent (p : Pane) (s : AppState) : AppState :=
  if isEditable p then
    if s.mode p = Mode.edit then s else clearContent p s
  else s

/-- `EditablePane.enter_edit_mode` (`pane.py` lines 195-204). -/
def enterEditMode (p : Pane) (s : AppState) : AppState :=
  if isEditable p ∧ s.mode p = Mode.command then
    { s with mode := Function.update s.mode p Mode.edit }
  else s

/-- `EditablePane.exit_edit_mode` (`pane.py` lines 206-211). -/
def exitEditMode (p : Pane) (s : AppState) : AppState :=
  if isEditable p ∧ s.mode p = Mode.edit then
    { s with mode := Function.update s.mode p Mode.command }
  else s

/-- One user-triggered operation of the workspace.  The layout actions
act on the pane currently owning focus, exactly as the `action_*`
methods resolve `_get_focused_pane`; the menu's per-pane hide / unhide
and focus transfer carry their target pane. -/
inductive Op where
  | opToggleMaximize
  | opToggleMinimize
  | opIncreaseHeight
  | opDecreaseHeight
  | opHideAllChildren
  | opShowAllChildren
  | opResetLayout
  | opFocusNext
  | opFocusPrevious
  | opFocusPane (p : Pane)
  | opHidePane (p : Pane)
  | opUnhidePane (p : Pane)
  | opClearContent
  | opEnterEdit
  | opExitEdit
  | opAppendChunk (c : String)
  | opSetStatus (t : String)

/-- Event dispatch: one operation applied to the current state. -/
def step (o : Op) (s : AppState) : AppState :=
  match o with
  | Op.opToggleMaximize => toggleMaximize s.focus s
  | Op.opToggleMinimize => toggleMinimize s.focus s
  | Op.opIncreaseHeight => increaseHeight s.focus s
  | Op.opDecreaseHeight => decreaseHeight s.focus s
  | Op.opHideAllChildren => hideAllChildren s
  | Op.opShowAllChildren => showAllChildren s
  | Op.opResetLayout => actionResetLayout s
  | Op.opFocusNext => actionFocusNext s
  | Op.opFocusPrevious => actionFocusPrevious s
  | Op.opFocusPane p => focusPane p s
  | Op.opHidePane p => hidePane p s
  | Op.opUnhidePane p => unhidePane p s
  | Op.opClearContent => actionClearContent s.focus s
  | Op.opEnterEdit => enterEditMode s.focus s
  | Op.opExitEdit => exitEditMode s.focus s
  | Op.opAppendChunk c => appendResponseChunk c s
  | Op.opSetStatus t => setStatus t s

/-- A sequence of operations applied left to right. -/
def run (ops : List Op) (s : AppState) : AppState :=
  ops.foldl (fun t o => step o t) s

/-- The state after `on_mount` (`main_window.py` lines 189-205): every
pane state `NORMAL`, nothing maximized, no hiding classes, default row
heights, focus on the root pane, every editable pane in command mode. -/
def initState : AppState where
  paneStates := fun _ => PaneState.normal
  maximizedPane := none
  rowHidden := fun _ => false
  paneRowHidden := fun _ => false
  displayNone := fun _ => false
  paneMinimized := fun _ => false
  rowHeight := fun _ => HeightLevel.h1
  focus := Pane.root
  mode := fun _ => Mode.command
  contents := fun _ => ""
  responseText := ""
  status := "Ready"

/-- Consistency of the maximize bookkeeping: whenever `maximized_pane` is
null, no `row-hidden` class is left on any pane or row container.  This
holds because `_maximize_pane` (the only place the class is added) is
always immediately followed by an assignment to `maximized_pane`, and
every assignment of `None` to `maximized_pane` is preceded by
`_restore_all_panes`. -/
def MaxHiddenInv (s : AppState) : Prop :=
  s.maximizedPane = none →
    (∀ q, s.paneRowHidden q = false) ∧ (∀ r, s.rowHidden r = false)

/-- An event sequence, startable from the initial state, that drives the
application into a state with two simultaneously maximized panes: raise
the Context row to `3fr`, maximize User Prompt, then press `ctrl+up` on
the (hidden but focusable) Context pane — `action_increase_height`
maximizes Context without restoring User Prompt first. -/
def c1Ops : List Op :=
  [Op.opFocusPane Pane.contextPane, Op.opIncreaseHeight, Op.opIncreaseHeight,
   Op.opFocusPane Pane.userPrompt, Op.opToggleMaximize,
   Op.opFocusPane Pane.contextPane, Op.opIncreaseHeight]

/-- Frame fact: `_maximize_pane` never touches `styles.display`. -/
theorem maximizePane_displayNone (p : Pane) (s : AppState) :
    (maximizePane p s).displayNone = s.displayNone := by
  cases h : paneRow p <;> simp [maximizePane, h]

/-- Frame fact: `_maximize_pane` never touches row heights. -/
theorem maximizePane_rowHeight (p : Pane) (s : AppState) :
    (maximizePane p s).rowHeight = s.rowHeight := by
  cases h : paneRow p <;> simp [maximizePane, h]

/-- Frame fact: `_maximize_pane` never assigns `maximized_pane` itself. -/
theorem maximizePane_maximizedPane (p : Pane) (s : AppState) :
    (maximizePane p s).maximizedPane = s.maximizedPane := by
  cases h : paneRow p <;> simp [maximizePane, h]

/-- Transfer of `MaxHiddenInv` along an operation that leaves
`maximized_pane` and both `row-hidden` class maps unchanged. -/
theorem inv_of_fields {s t : AppState}
    (hm : t.maximizedPane = s.maximizedPane)
    (hp : t.paneRowHidden = s.paneRowHidden)
    (hr : t.rowHidden = s.rowHidden)
    (h : MaxHiddenInv s) : MaxHiddenInv t := by
  intro hmax
  rw [hm] at hmax
  rw [hp, hr]
  exact h hmax

/-- A state with a non-null `maximized_pane` satisfies `MaxHiddenInv`
vacuously. -/
theorem inv_of_some {t : AppState} {p : Pane} (hm : t.maximizedPane = some p) :
    MaxHiddenInv t := by
  intro hmax
  rw [hm] at hmax
  exact absurd hmax (by simp)

/-- A state with every `row-hidden` class cleared satisfies
`MaxHiddenInv`. -/
theorem inv_of_cleared {t : AppState}
    (hp : ∀ q, t.paneRowHidden q = false) (hr : ∀ r, t.rowHidden r = false) :
    MaxHiddenInv t := fun _ => ⟨hp, hr⟩

/-- `action_toggle_maximize` preserves `MaxHiddenInv`. -/
theorem inv_toggleMaximize (p : Pane) (s : AppState) :
    MaxHiddenInv (toggleMaximize p s) := by
  unfold toggleMaximize
  repeat' split
  all_goals first
    | exact inv_of_cleared (fun q => rfl) (fun r => rfl)
    | exact inv_of_some rfl

/-- `action_toggle_minimize` preserves `MaxHiddenInv`. -/
theorem inv_toggleMinimize (p : Pane) (s : AppState) (h : MaxHiddenInv s) :
    MaxHiddenInv (toggleMinimize p s) := by
  unfold toggleMinimize
  repeat' split
  all_goals exact inv_of_fields rfl rfl rfl h

/-- `action_increase_height` preserves `MaxHiddenInv`. -/
theorem inv_increaseHeight (p : Pane) (s : AppState) (h : MaxHiddenInv s) :
    MaxHiddenInv (increaseHeight p s) := by
  unfold increaseHeight
  repeat' split
  all_goals first
    | exact inv_of_cleared (fun q => rfl) (fun r => rfl)
    | exact inv_of_some rfl
    | exact inv_of_fields rfl rfl rfl h

/-- `action_decrease_height` preserves `MaxHiddenInv`. -/
theorem inv_decreaseHeight (p : Pane) (s : AppState) (h : MaxHiddenInv s) :
    MaxHiddenInv (decreaseHeight p s) := by
  unfold decreaseHeight
  repeat' split
  all_goals first
    | exact inv_of_cleared (fun q => rfl) (fun r => rfl)
    | exact inv_of_some rfl
    | exact inv_of_fields rfl rfl rfl h

/-- What `action_reset_layout` establishes on a state satisfying
`MaxHiddenInv`: all pane states `NORMAL`, all child panes shown, all
`row-hidden` classes cleared, all row heights `1fr`, no maximized
pane.  The root pane's own `styles.display` is not touched
(`RootPane.reset_layout` iterates only `child_panes`). -/
theorem resetLayout_props (s : AppState) (h : MaxHiddenInv s) :
    (∀ q, (actionResetLayout s).paneStates q = PaneState.normal) ∧
    (∀ q, q ≠ Pane.root → (actionResetLayout s).displayNone q = false) ∧
    (∀ q, (actionResetLayout s).paneRowHidden q = false) ∧
    (∀ r, (actionResetLayout s).rowHidden r = false) ∧
    (∀ r, (actionResetLayout s).rowHeight r = HeightLevel.h1) ∧
    (actionResetLayout s).maximizedPane = none := by
  unfold actionResetLayout rootResetLayout
  by_cases hm : s.maximizedPane ≠ none
  · rw [if_pos hm]
    refine ⟨fun q => rfl, fun q hq => ?_, fun q => rfl, fun r => rfl, fun r => rfl, rfl⟩
    simp [hq]
  · rw [if_neg hm]
    have hnone : s.maximizedPane = none := not_not.mp hm
    refine ⟨fun q => rfl, fun q hq => ?_, fun q => ?_, fun r => rfl, fun r => rfl, hnone⟩
    · simp [hq]
    · exact (h hnone).1 q

/-- `action_reset_layout` preserves `MaxHiddenInv`. -/
theorem inv_reset (s : AppState) (h : MaxHiddenInv s) :
    MaxHiddenInv (actionResetLayout s) := by
  rcases resetLayout_props s h with ⟨_, _, hp, hr, _, _⟩
  exact inv_of_cleared hp hr

/-- Every dispatched operation preserves `MaxHiddenInv`. -/
theorem inv_step (o : Op) (s : AppState) (h : MaxHiddenInv s) : MaxHiddenInv (step o s) := by
  cases o with
  | opToggleMaximize => exact inv_toggleMaximize s.focus s
  | opToggleMinimize => exact inv_toggleMinimize s.focus s h
  | opIncreaseHeight => exact inv_increaseHeight s.focus s h
  | opDecreaseHeight => exact inv_decreaseHeight s.focus s h
  | opHideAllChildren => exact inv_of_fields rfl rfl rfl h
  | opShowAllChildren => exact inv_of_fields rfl rfl rfl h
  | opResetLayout => exact inv_reset s h
  | opFocusNext => exact inv_of_fields rfl rfl rfl h
  | opFocusPrevious => exact inv_of_fields rfl rfl rfl h
  | opFocusPane p => exact inv_of_fields rfl rfl rfl h
  | opHidePane p => exact inv_of_fields rfl rfl rfl h
  | opUnhidePane p => exact inv_of_fields rfl rfl rfl h
  | opClearContent =>
      show MaxHiddenInv (actionClearContent s.focus s)
      unfold actionClearContent clearContent
      repeat' split
      all_goals exact inv_of_fields rfl rfl rfl h
  | opEnterEdit =>
      show MaxHiddenInv (enterEditMode s.focus s)
      unfold enterEditMode
      repeat' split
      all_goals exact inv_of_fields rfl rfl rfl h
  | opExitEdit =>
      show MaxHiddenInv (exitEditMode s.focus s)
      unfold exitEditMode
      repeat' split
      all_goals exact inv_of_fields rfl rfl rfl h
  | opAppendChunk c => exact inv_of_fields rfl rfl rfl h
  | opSetStatus t => exact inv_of_fields rfl rfl rfl h

/-- `MaxHiddenInv` holds in every state reachable by an operation
sequence. -/
theorem inv_run (ops : List Op) (s : AppState) (h : MaxHiddenInv s) :
    MaxHiddenInv (run ops s) := by
  induction ops generalizing s with
  | nil => exact h
  | cons o rest ih => exact ih (step o s) (inv_step o s h)

/-- The initial state satisfies `MaxHiddenInv`. -/
theorem inv_init : MaxHiddenInv initState := fun _ => ⟨fun _ => rfl, fun _ => rfl⟩


/-- Claim C1 (code bug witnessed at the failing input): the single-maximized
invariant is reachable-state false.  Running, from the initial state,
the sequence "focus Context, increase height twice, focus User Prompt,
toggle maximize, focus Context, increase height once" leaves two
distinct panes (User Prompt and Context) both with
`state == MAXIMIZED`: `action_increase_height` calls `_maximize_pane`
without first restoring the previously maximized pane. -/
theorem c1_double_maximized :
    (run c1Ops initState).paneStates Pane.userPrompt = PaneState.maximized ∧
    (run c1Ops initState).paneStates Pane.contextPane = PaneState.maximized ∧
    Pane.userPrompt ≠ Pane.contextPane := by
  decide

/-- Counterexample to claim C2 as stated: it quantifies over every
starting state, but starting with User Prompt maximized and toggling
maximize on Context twice ends with nothing maximized, so the hidden
flag that the initial maximization had put on System Prompt is not
restored. -/
theorem c2_counterexample :
    (toggleMaximize Pane.contextPane (toggleMaximize Pane.contextPane
        (toggleMaximize Pane.userPrompt initState))).paneRowHidden Pane.systemPrompt
      ≠ (toggleMaximize Pane.userPrompt initState).paneRowHidden Pane.systemPrompt := by
  decide

/-- Claim C2 (amended): if no pane is maximized at the start and no
maximize-induced `row-hidden` flag is set, then `toggle_maximize(p)`
applied twice returns every hidden flag, every row height, the
display overrides and the global maximized id to exactly their values
before the first call — for every pane `p`, the root included. -/
theorem c2_amended (s : AppState) (p : Pane)
    (hmax : s.maximizedPane = none)
    (hrow : ∀ r, s.rowHidden r = false)
    (hpane : ∀ q, s.paneRowHidden q = false) :
    (toggleMaximize p (toggleMaximize p s)).rowHidden = s.rowHidden ∧
    (toggleMaximize p (toggleMaximize p s)).paneRowHidden = s.paneRowHidden ∧
    (toggleMaximize p (toggleMaximize p s)).displayNone = s.displayNone ∧
    (toggleMaximize p (toggleMaximize p s)).rowHeight = s.rowHeight ∧
    (toggleMaximize p (toggleMaximize p s)).maximizedPane = s.maximizedPane := by
  have h1 : toggleMaximize p s = { maximizePane p s with maximizedPane := some p } := by
    simp [toggleMaximize, hmax]
  have h2 : toggleMaximize p (toggleMaximize p s)
      = { restoreAllPanes { maximizePane p s with maximizedPane := some p } with
          maximizedPane := none } := by
    rw [h1]
    simp [toggleMaximize]
  rw [h2, hmax]
  refine ⟨?_, ?_, ?_, ?_, rfl⟩
  · funext r
    simp [restoreAllPanes, hrow r]
  · funext q
    simp [restoreAllPanes, hpane q]
  · simp [restoreAllPanes, maximizePane_displayNone]
  · simp [restoreAllPanes, maximizePane_rowHeight]

/-- Witness for the amended claim C2 at the initial state with
`p = User Prompt`. -/
theorem c2_witness :
    (toggleMaximize Pane.userPrompt (toggleMaximize Pane.userPrompt initState)).rowHidden
        = initState.rowHidden ∧
    (toggleMaximize Pane.userPrompt (toggleMaximize Pane.userPrompt initState)).paneRowHidden
        = initState.paneRowHidden ∧
    (toggleMaximize Pane.userPrompt (toggleMaximize Pane.userPrompt initState)).displayNone
        = initState.displayNone ∧
    (toggleMaximize Pane.userPrompt (toggleMaximize Pane.userPrompt initState)).rowHeight
        = initState.rowHeight ∧
    (toggleMaximize Pane.userPrompt (toggleMaximize Pane.userPrompt initState)).maximizedPane
        = initState.maximizedPane :=
  c2_amended initState Pane.userPrompt rfl (fun _ => rfl) (fun _ => rfl)

/-- Counterexample to claim C3 as stated: starting from User Prompt
minimized in the initial layout, five applications of
`action_increase_height` do not leave the pane `MAXIMIZED` (they leave
it `MINIMIZED` again: the ladder Minimized to Maximized takes four
steps, and the fifth wraps). -/
theorem c3_counterexample :
    (increaseHeight Pane.userPrompt (increaseHeight Pane.userPrompt (increaseHeight Pane.userPrompt
      (increaseHeight Pane.userPrompt (increaseHeight Pane.userPrompt
        (toggleMinimize Pane.userPrompt initState)))))).paneStates Pane.userPrompt
      ≠ PaneState.maximized := by
  decide

/-- Claim C3 (amended): for every non-Root pane starting `MINIMIZED`
(and not globally maximized), four applications of
`action_increase_height` leave it `MAXIMIZED` (and globally
maximized), and a fifth application wraps it back to `MINIMIZED` —
the ladder being Minimized, Normal(1fr), 2fr, 3fr, Maximized,
cyclic. -/
theorem c3_amended (s : AppState) (p : Pane) (r : Fin 3)
    (hr : paneRow p = some r)
    (hmin : s.paneStates p = PaneState.minimized)
    (hnm : s.maximizedPane ≠ some p) :
    ((increaseHeight p (increaseHeight p (increaseHeight p
        (increaseHeight p s)))).paneStates p = PaneState.maximized ∧
     (increaseHeight p (increaseHeight p (increaseHeight p
        (increaseHeight p s)))).maximizedPane = some p) ∧
    (increaseHeight p (increaseHeight p (increaseHeight p (increaseHeight p
        (increaseHeight p s))))).paneStates p = PaneState.minimized := by
  have e1 : increaseHeight p s =
      { s with
        paneMinimized := Function.update s.paneMinimized p false
        paneStates := Function.update s.paneStates p PaneState.normal
        rowHeight := Function.update s.rowHeight r HeightLevel.h1 } := by
    simp [increaseHeight, hnm, hmin, hr]
  have e2 : increaseHeight p (increaseHeight p s) =
      { s with
        paneMinimized := Function.update s.paneMinimized p false
        paneStates := Function.update s.paneStates p PaneState.normal
        rowHeight := Function.update s.rowHeight r HeightLevel.h2 } := by
    rw [e1]
    simp [increaseHeight, hnm, hr, Function.update_idem]
  have e3 : increaseHeight p (increaseHeight p (increaseHeight p s)) =
      { s with
        paneMinimized := Function.update s.paneMinimized p false
        paneStates := Function.update s.paneStates p PaneState.normal
        rowHeight := Function.update s.rowHeight r HeightLevel.h3 } := by
    rw [e2]
    simp [increaseHeight, hnm, hr, Function.update_idem]
  have e4 : increaseHeight p (increaseHeight p (increaseHeight p (increaseHeight p s))) =
      { s with
        paneMinimized := Function.update s.paneMinimized p false
        paneStates := Function.update
          (Function.update s.paneStates p PaneState.normal) p PaneState.maximized
        rowHeight := Function.update s.rowHeight r HeightLevel.h3
        rowHidden := fun i => if i = r then s.rowHidden i else true
        paneRowHidden := fun q =>
          if paneRow q = some r ∧ q ≠ p then true else s.paneRowHidden q
        maximizedPane := some p } := by
    rw [e3]
    simp [increaseHeight, hnm, hr, maximizePane]
  refine ⟨⟨?_, ?_⟩, ?_⟩
  · rw [e4]; simp
  · rw [e4]
  · rw [e4]
    simp [increaseHeight, restoreAllPanes]

/-- Witness for the amended claim C3: User Prompt minimized from the
initial state reaches `MAXIMIZED` after four steps and `MINIMIZED`
after five. -/
theorem c3_witness :
    ((increaseHeight Pane.userPrompt (increaseHeight Pane.userPrompt (increaseHeight Pane.userPrompt
        (increaseHeight Pane.userPrompt
          (toggleMinimize Pane.userPrompt initState))))).paneStates Pane.userPrompt
        = PaneState.maximized ∧
     (increaseHeight Pane.userPrompt (increaseHeight Pane.userPrompt (increaseHeight Pane.userPrompt
        (increaseHeight Pane.userPrompt
          (toggleMinimize Pane.userPrompt initState))))).maximizedPane
        = some Pane.userPrompt) ∧
    (increaseHeight Pane.userPrompt (increaseHeight Pane.userPrompt (increaseHeight Pane.userPrompt
      (increaseHeight Pane.userPrompt (increaseHeight Pane.userPrompt
        (toggleMinimize Pane.userPrompt initState)))))).paneStates Pane.userPrompt
      = PaneState.minimized :=
  c3_amended (toggleMinimize Pane.userPrompt initState) Pane.userPrompt 0
    rfl (by decide) (by decide)

/-- Claim C4: restoring from a maximize (toggle on the currently
maximized pane) clears the global maximized id and every `row-hidden`
flag, keeps every pane that was `MINIMIZED` in `MINIMIZED`, and sets
the restored pane itself to `NORMAL` unless it independently held
`MINIMIZED`. -/
theorem c4_restore_preserves_minimized (s : AppState) (p : Pane)
    (h : s.maximizedPane = some p) :
    (toggleMaximize p s).maximizedPane = none ∧
    (∀ q, s.paneStates q = PaneState.minimized →
      (toggleMaximize p s).paneStates q = PaneState.minimized) ∧
    (s.paneStates p ≠ PaneState.minimized →
      (toggleMaximize p s).paneStates p = PaneState.normal) ∧
    (∀ r, (toggleMaximize p s).rowHidden r = false) ∧
    (∀ q, (toggleMaximize p s).paneRowHidden q = false) := by
  have h1 : toggleMaximize p s = { restoreAllPanes s with maximizedPane := none } := by
    simp [toggleMaximize, h]
  rw [h1]
  refine ⟨rfl, ?_, ?_, fun r => rfl, fun q => rfl⟩
  · intro q hq
    simp [restoreAllPanes, hq]
  · intro hp
    simp [restoreAllPanes, hp]

/-- Witness for claim C4 at the state in which User Prompt has just been
maximized from the initial state. -/
theorem c4_witness :
    (toggleMaximize Pane.userPrompt (toggleMaximize Pane.userPrompt initState)).maximizedPane
        = none ∧
    (∀ q, (toggleMaximize Pane.userPrompt initState).paneStates q = PaneState.minimized →
      (toggleMaximize Pane.userPrompt
        (toggleMaximize Pane.userPrompt initState)).paneStates q = PaneState.minimized) ∧
    ((toggleMaximize Pane.userPrompt initState).paneStates Pane.userPrompt
        ≠ PaneState.minimized →
      (toggleMaximize Pane.userPrompt
        (toggleMaximize Pane.userPrompt initState)).paneStates Pane.userPrompt
        = PaneState.normal) ∧
    (∀ r, (toggleMaximize Pane.userPrompt
        (toggleMaximize Pane.userPrompt initState)).rowHidden r = false) ∧
    (∀ q, (toggleMaximize Pane.userPrompt
        (toggleMaximize Pane.userPrompt initState)).paneRowHidden q = false) :=
  c4_restore_preserves_minimized (toggleMaximize Pane.userPrompt initState)
    Pane.userPrompt (by decide)

/-- Claim C5: `toggle_minimize(p)` is a complete no-op when `p` is the
globally maximized pane; otherwise it flips `p` between `NORMAL` and
`MINIMIZED` and changes no other pane's state, no row height, and no
hidden flag. -/
theorem c5_minimize_blocked_or_flip (s : AppState) (p : Pane) :
    (s.maximizedPane = some p → toggleMinimize p s = s) ∧
    (s.maximizedPane ≠ some p →
      ((toggleMinimize p s).rowHeight = s.rowHeight ∧
       (toggleMinimize p s).rowHidden = s.rowHidden ∧
       (toggleMinimize p s).paneRowHidden = s.paneRowHidden ∧
       (toggleMinimize p s).displayNone = s.displayNone ∧
       (toggleMinimize p s).maximizedPane = s.maximizedPane ∧
       (∀ q, q ≠ p → (toggleMinimize p s).paneStates q = s.paneStates q) ∧
       (s.paneStates p = PaneState.normal →
         (toggleMinimize p s).paneStates p = PaneState.minimized) ∧
       (s.paneStates p = PaneState.minimized →
         (toggleMinimize p s).paneStates p = PaneState.normal))) := by
  constructor
  · intro h
    simp [toggleMinimize, h]
  · intro h
    by_cases hm : s.paneStates p = PaneState.minimized
    · refine ⟨?_, ?_, ?_, ?_, ?_, ?_, ?_, ?_⟩ <;>
        simp [toggleMinimize, h, hm, Function.update_noteq]
      intro q hq
      simp [Function.update_noteq hq]
    · refine ⟨?_, ?_, ?_, ?_, ?_, ?_, ?_, ?_⟩ <;>
        simp [toggleMinimize, h, hm, Function.update_noteq]
      intro q hq
      simp [Function.update_noteq hq]

/-- Witness for claim C5: the no-op case with User Prompt maximized, and
the flip case at the initial state. -/
theorem c5_witness :
    toggleMinimize Pane.userPrompt (toggleMaximize Pane.userPrompt initState)
        = toggleMaximize Pane.userPrompt initState ∧
    (toggleMinimize Pane.userPrompt initState).paneStates Pane.userPrompt
        = PaneState.minimized :=
  ⟨(c5_minimize_blocked_or_flip (toggleMaximize Pane.userPrompt initState) Pane.userPrompt).1
      (by decide),
   (((c5_minimize_blocked_or_flip initState Pane.userPrompt).2
      (by decide)).2.2.2.2.2.2.1) (by decide)⟩

/-- Claim C6: from every starting focus owner, six applications of
`action_focus_next` (six being the total pane count, Root included)
return the focus owner to the starting pane; a single application moves
to the successor in registration order, and hiding any pane — or all
children — does not change where focus moves (hidden panes are not
skipped). -/
theorem c6_focus_cycle (s : AppState) :
    (actionFocusNext (actionFocusNext (actionFocusNext (actionFocusNext
      (actionFocusNext (actionFocusNext s)))))).focus = s.focus ∧
    (actionFocusNext s).focus = paneAt (paneIdx s.focus + 1) ∧
    (∀ q, (actionFocusNext (hidePane q s)).focus = (actionFocusNext s).focus) ∧
    (actionFocusNext (hideAllChildren s)).focus = (actionFocusNext s).focus := by
  refine ⟨?_, rfl, ?_, rfl⟩
  · have h6 : ∀ q : Pane,
        focusNextPane (focusNextPane (focusNextPane (focusNextPane
          (focusNextPane (focusNextPane q))))) = q := by
      intro q; cases q <;> rfl
    simp only [actionFocusNext]
    exact h6 s.focus
  · intro q; rfl

/-- Counterexample to claim C7 as stated: hiding the Root pane itself
through the pane menu and then running `action_reset_layout` leaves the
Root pane's display override in place (`RootPane.reset_layout` iterates
only the children), so not every pane ends un-hidden. -/
theorem c7_counterexample :
    ¬ ((actionResetLayout (run [Op.opHidePane Pane.root] initState)).displayNone Pane.root
        = false) := by
  decide

/-- Claim C7 (amended): after `action_reset_layout`, regardless of which
operation sequence preceded it from the initial state, every pane's
state is `NORMAL`, every non-Root pane's display override is cleared,
every maximize-induced `row-hidden` flag (on panes and on rows) is
cleared, every row's height is `1fr`, and the global maximized id is
null.  Only the Root pane's own display override — settable solely
through the per-pane menu hide — escapes the reset. -/
theorem c7_amended (ops : List Op) :
    (∀ q, (actionResetLayout (run ops initState)).paneStates q = PaneState.normal) ∧
    (∀ q, q ≠ Pane.root →
        (actionResetLayout (run ops initState)).displayNone q = false) ∧
    (∀ q, (actionResetLayout (run ops initState)).paneRowHidden q = false) ∧
    (∀ r, (actionResetLayout (run ops initState)).rowHidden r = false) ∧
    (∀ r, (actionResetLayout (run ops initState)).rowHeight r = HeightLevel.h1) ∧
    (actionResetLayout (run ops initState)).maximizedPane = none :=
  resetLayout_props (run ops initState) (inv_run ops initState inv_init)

/-- Claim C8: appending a streaming content chunk through
`append_response_chunk` changes only the response text buffer (by
appending the chunk); every pane state, every hidden flag, every mode,
every row height, the maximized id, the focus owner and every editable
pane's content are unchanged. -/
theorem c8_streaming_frame (s : AppState) (c : String) :
    (appendResponseChunk c s).responseText = s.responseText ++ c ∧
    (appendResponseChunk c s).paneStates = s.paneStates ∧
    (appendResponseChunk c s).maximizedPane = s.maximizedPane ∧
    (appendResponseChunk c s).rowHidden = s.rowHidden ∧
    (appendResponseChunk c s).paneRowHidden = s.paneRowHidden ∧
    (appendResponseChunk c s).displayNone = s.displayNone ∧
    (appendResponseChunk c s).paneMinimized = s.paneMinimized ∧
    (appendResponseChunk c s).rowHeight = s.rowHeight ∧
    (appendResponseChunk c s).mode = s.mode ∧
    (appendResponseChunk c s).contents = s.contents ∧
    (appendResponseChunk c s).focus = s.focus :=
  ⟨rfl, rfl, rfl, rfl, rfl, rfl, rfl, rfl, rfl, rfl, rfl⟩

/-- Claim C9: for an editable pane, the clear-content command is a
complete no-op while the pane is in Edit mode, and in Command mode it
empties exactly that pane's content. -/
theorem c9_clear_blocked_in_edit (s : AppState) (p : Pane) (hp : isEditable p = true) :
    (s.mode p = Mode.edit → actionClearContent p s = s) ∧
    (s.mode p = Mode.command →
      (actionClearContent p s).contents p = "" ∧
      ∀ q, q ≠ p → (actionClearContent p s).contents q = s.contents q) := by
  constructor
  · intro h
    simp [actionClearContent, hp, h]
  · intro h
    have hne : ¬ s.mode p = Mode.edit := by simp [h]
    refine ⟨?_, fun q hq => ?_⟩
    · simp [actionClearContent, hp, hne, clearContent]
    · simp [actionClearContent, hp, hne, clearContent, Function.update_noteq hq]

/-- Witness for claim C9: User Prompt in Edit mode rejects the clear as
a no-op; in Command mode the clear empties its content. -/
theorem c9_witness :
    actionClearContent Pane.userPrompt (enterEditMode Pane.userPrompt initState)
        = enterEditMode Pane.userPrompt initState ∧
    (actionClearContent Pane.userPrompt initState).contents Pane.userPrompt = "" :=
  ⟨(c9_clear_blocked_in_edit (enterEditMode Pane.userPrompt initState) Pane.userPrompt rfl).1
      (by decide),
   ((c9_clear_blocked_in_edit initState Pane.userPrompt rfl).2 (by decide)).1⟩

/-- Claim C10: toggling maximize with the Root pane focused while no pane
is maximized sets the global maximized id to the Root pane while
changing no pane state, no hidden flag and no row height (in
particular the Root's recorded state is not set to `MAXIMIZED`); in the
resulting state `toggle_minimize` on the Root is blocked as a no-op,
and a second `toggle_maximize` clears the global maximized id. -/
theorem c10_root_maximize (s : AppState) (h : s.maximizedPane = none) :
    (toggleMaximize Pane.root s).maximizedPane = some Pane.root ∧
    (toggleMaximize Pane.root s).paneStates = s.paneStates ∧
    (toggleMaximize Pane.root s).rowHidden = s.rowHidden ∧
    (toggleMaximize Pane.root s).paneRowHidden = s.paneRowHidden ∧
    (toggleMaximize Pane.root s).displayNone = s.displayNone ∧
    (toggleMaximize Pane.root s).rowHeight = s.rowHeight ∧
    toggleMinimize Pane.root (toggleMaximize Pane.root s) = toggleMaximize Pane.root s ∧
    (toggleMaximize Pane.root (toggleMaximize Pane.root s)).maximizedPane = none := by
  have h1 : toggleMaximize Pane.root s = { s with maximizedPane := some Pane.root } := by
    simp [toggleMaximize, h, maximizePane, paneRow]
  rw [h1]
  refine ⟨rfl, rfl, rfl, rfl, rfl, rfl, ?_, ?_⟩
  · simp [toggleMinimize]
  · simp [toggleMaximize]

/-- Witness for claim C10 at the initial state. -/
theorem c10_witness :
    (toggleMaximize Pane.root initState).maximizedPane = some Pane.root ∧
    (toggleMaximize Pane.root initState).paneStates = initState.paneStates ∧
    (toggleMaximize Pane.root initState).rowHidden = initState.rowHidden ∧
    (toggleMaximize Pane.root initState).paneRowHidden = initState.paneRowHidden ∧
    (toggleMaximize Pane.root initState).displayNone = initState.displayNone ∧
    (toggleMaximize Pane.root initState).rowHeight = initState.rowHeight ∧
    toggleMinimize Pane.root (toggleMaximize Pane.root initState)
        = toggleMaximize Pane.root initState ∧
    (toggleMaximize Pane.root (toggleMaximize Pane.root initState)).maximizedPane = none :=
  c10_root_maximize initState rfl

end LLMManager
